import Mathlib

/-!
Shallow embedding of the Context7 MCP server core (`src/index.ts` and the
config module `lib/config.ts`).

Modelling conventions:
- JavaScript strings are modelled as Lean `String`; `.length` as `String.length`
  (the inputs of interest are ASCII, where UTF-16 length and character count agree).
- JavaScript numbers that the program treats as integers are modelled as `Int`.
- A call to the external collaborator (`searchLibraries` / `fetchLibraryDocumentation`)
  either throws or returns a value; this is the `RemoteCall` type.  The collaborator
  itself is out of scope and is passed to each handler as a function parameter.
- Each handler returns its response envelope together with the list of calls it
  made to the collaborator, so "the remote is never invoked" is observable.
- The filesystem seen by the config loader is modelled by `ConfigFileState`.
-/

namespace Context7

def digitsVal : List Char → Option Nat
  | [] => none
  | cs => some (cs.foldl (fun a c => a * 10 + (c.toNat - 48)) 0)

/-- JS `Number(s)` coercion, modelled on integer-literal strings
(the only shape the program's callers exercise for the `tokens` field);
a non-numeric string yields `none` (NaN). -/
def jsNumber (s : String) : Option Int :=
  match s.data with
  | '-' :: rest =>
    if rest.all Char.isDigit then (digitsVal rest).map (fun n => -(n : Int)) else none
  | cs =>
    if cs.all Char.isDigit then (digitsVal cs).map (fun n => (n : Int)) else none

/-- JS `parseInt(s, 10)`: optional sign then a longest digit prefix;
`none` models NaN. -/
def jsParseInt (s : String) : Option Int :=
  let cs := s.data.dropWhile (fun c => c == ' ')
  match cs with
  | '-' :: rest => (digitsVal (rest.takeWhile Char.isDigit)).map (fun n => -(n : Int))
  | '+' :: rest => (digitsVal (rest.takeWhile Char.isDigit)).map (fun n => (n : Int))
  | _ => (digitsVal (cs.takeWhile Char.isDigit)).map (fun n => (n : Int))

/-- Lines 17-27 of `index.ts`: `DEFAULT_MINIMUM_TOKENS` from the environment,
10000 when absent, non-positive or unparsable. -/
def defaultMinimumTokens (env : Option String) : Int :=
  match env with
  | none => 10000
  | some s =>
    match jsParseInt s with
    | some n => if 0 < n then n else 10000
    | none => 10000

/-- `lib/config.ts`: the `Context7Config` interface. -/
structure Context7Config where
  defaultLang : String
  defaultVersion : String
  supportedLangs : List String
  supportedVersions : List (String × List String)
deriving Repr, DecidableEq

/-- `lib/config.ts`: the `DEFAULT_CONFIG` literal. -/
def DEFAULT_CONFIG : Context7Config :=
  { defaultLang := "python"
    defaultVersion := "3.11"
    supportedLangs := ["python"]
    supportedVersions := [("python", ["3.11"])] }

/-- A parsed `.context7rc.json` document: each recognised top-level key is
present or absent (unknown keys are ignored by the spread merge, so they are
not modelled). -/
structure ConfigDoc where
  defaultLang : Option String
  defaultVersion : Option String
  supportedLangs : Option (List String)
  supportedVersions : Option (List (String × List String))
deriving Repr, DecidableEq

/-- State of the `.context7rc.json` file as seen through `fs`. -/
inductive ConfigFileState where
  | absent
  | unparsable
  | parsed (doc : ConfigDoc)
deriving Repr, DecidableEq

/-- `lib/config.ts` `getContext7Config`: the returned snapshot, paired with
whether the parse-failure warning was logged.  A present key overwrites the
default wholesale (JS object spread); an absent key keeps the default. -/
def getContext7Config : ConfigFileState → Context7Config × Bool
  | .absent => (DEFAULT_CONFIG, false)
  | .unparsable => (DEFAULT_CONFIG, true)
  | .parsed doc =>
    ({ defaultLang := doc.defaultLang.getD DEFAULT_CONFIG.defaultLang
       defaultVersion := doc.defaultVersion.getD DEFAULT_CONFIG.defaultVersion
       supportedLangs := doc.supportedLangs.getD DEFAULT_CONFIG.supportedLangs
       supportedVersions := doc.supportedVersions.getD DEFAULT_CONFIG.supportedVersions },
     false)

/-- One `{ type: "text", text: ... }` content block. -/
structure TextBlock where
  type : String
  text : String
deriving Repr, DecidableEq

/-- The uniform response envelope `{ isError, content }`; a success envelope
has `isError = false` (the field is absent in the source, hence falsy). -/
structure Envelope where
  isError : Bool
  content : List TextBlock
deriving Repr, DecidableEq

def errEnv (msg : String) : Envelope :=
  { isError := true, content := [{ type := "text", text := msg }] }

def okEnv (msg : String) : Envelope :=
  { isError := false, content := [{ type := "text", text := msg }] }

/-- Outcome of one call to the external collaborator: the promise either
rejects (throws) with a message, or resolves to a value. -/
inductive RemoteCall (α : Type) where
  | throws (msg : String)
  | returns (val : α)
deriving Repr, DecidableEq

/-- One entry of the remote search result list (shape per the collaborator
contract; the handlers never inspect the fields). -/
structure SearchResult where
  id : String
  name : String
  description : String
  snippetCount : Int
  starCount : Int
deriving Repr, DecidableEq

/-- The remote search response object; `results` is `none` when the field is
missing (falsy in JS). -/
structure SearchResponse where
  results : Option (List SearchResult)
deriving Repr, DecidableEq

/-- Characters kept by the `libraryName` sanitizer regex `[^a-zA-Z0-9_\-\. ]`. -/
def isNameChar (c : Char) : Bool :=
  c.isAlpha || c.isDigit || c == '_' || c == '-' || c == '.' || c == ' '

/-- Line 106 of `index.ts`: delete every character outside the kept class. -/
def sanitizeLibraryName (s : String) : String :=
  String.mk (s.data.filter isNameChar)

/-- Characters kept by the library-id sanitizer regex `[^a-zA-Z0-9_\-\/\.]`. -/
def isIdChar (c : Char) : Bool :=
  c.isAlpha || c.isDigit || c == '_' || c == '-' || c == '/' || c == '.'

/-- Line 204 of `index.ts`: delete every character outside the kept class. -/
def sanitizeLibraryId (s : String) : String :=
  String.mk (s.data.filter isIdChar)

def invalidNameMsg : String := "Invalid library name. Must be 2-100 characters."

def failedRetrieveMsg : String := "Failed to retrieve library documentation data from Context7"

def noLibrariesMsg : String := "No documentation libraries available"

def invalidIdMsg : String := "Invalid Context7-compatible library ID."

def invalidTokensMsg : String := "Token count must be between 100 and 100000."

def docsNotFoundMsg : String := "Documentation not found or not finalized for this library. This might have happened because you used an invalid Context7-compatible library ID. To get a valid Context7-compatible library ID, use the \x27resolve-library-id\x27 with the package name you wish to retrieve documentation for."

def resolvePreamble : String := "Available Libraries (top matches):\n\nEach result includes:\n- Library ID: Context7-compatible identifier (format: /org/repo)\n- Name: Library or package name\n- Description: Short summary\n- Code Snippets: Number of available code examples\n- GitHub Stars: Popularity indicator\n\nFor best results, select libraries based on name match, popularity (stars), snippet coverage, and relevance to your use case.\n\n---\n\n"

/-- Line 107 of `index.ts`: the query sent to the remote search; an empty
sanitized name (falsy) is replaced by the config-derived fallback. -/
def searchQueryOf (cfg : Context7Config) (libraryName : String) : String :=
  let safeLibraryName := sanitizeLibraryName libraryName
  if safeLibraryName == "" then cfg.defaultLang ++ " " ++ cfg.defaultVersion
  else safeLibraryName

/-- Lines 92-147 of `index.ts`: the `resolve-library-id` handler.
`fmt` abstracts the external `formatSearchResults`; `search` abstracts the
external `searchLibraries` (its returned value may be null, i.e. `none`).
The second component is the list of queries actually sent to the remote. -/
def resolveLibraryId (cfg : Context7Config) (fmt : SearchResponse → String)
    (search : String → RemoteCall (Option SearchResponse)) (libraryName : String) :
    Envelope × List String :=
  if libraryName.length < 2 ∨ libraryName.length > 100 then
    (errEnv invalidNameMsg, [])
  else
    match search (searchQueryOf cfg libraryName) with
    | .throws msg => (errEnv ("Error: " ++ msg), [searchQueryOf cfg libraryName])
    | .returns none => (errEnv failedRetrieveMsg, [searchQueryOf cfg libraryName])
    | .returns (some resp) =>
      match resp.results with
      | none => (errEnv failedRetrieveMsg, [searchQueryOf cfg libraryName])
      | some rs =>
        if rs.length = 0 then (errEnv noLibrariesMsg, [searchQueryOf cfg libraryName])
        else (okEnv (resolvePreamble ++ fmt resp), [searchQueryOf cfg libraryName])

/-- A raw `tokens` value as it arrives over the wire: a number or a string. -/
inductive TokensValue where
  | num (n : Int)
  | str (s : String)
deriving Repr, DecidableEq

/-- Line 166 of `index.ts`: the zod `.transform` raising low values to the
configured minimum. -/
def clampTokens (minTok : Int) (v : Int) : Int :=
  if v < minTok then minTok else v

/-- Lines 164-167 of `index.ts`: the zod pipeline for `tokens`:
`preprocess` coerces a string with `Number`, `z.number()` rejects NaN
(outer `none` = request rejected by schema validation), the transform clamps,
and `.optional()` lets an absent value through untouched. -/
def zodTokens (minTok : Int) : Option TokensValue → Option (Option Int)
  | none => some none
  | some (.num n) => some (some (clampTokens minTok n))
  | some (.str s) =>
    match jsNumber s with
    | some n => some (some (clampTokens minTok n))
    | none => none

/-- The `"?folders="` marker as a character list. -/
def foldersMarker : List Char := ['?', 'f', 'o', 'l', 'd', 'e', 'r', 's', '=']

def foldersMarkerStr : String := "?folders="

/-- JS `String.prototype.includes` specialised to the folders marker:
some suffix of the character list starts with the marker. -/
def charsHasMarker : List Char → Bool
  | [] => false
  | c :: cs => foldersMarker.isPrefixOf (c :: cs) || charsHasMarker cs

/-- Line 207 of `index.ts`: `safeLibraryId.includes("?folders=")`. -/
def hasFoldersMarker (s : String) : Bool :=
  charsHasMarker s.data

/-- The argument record passed to the external `fetchLibraryDocumentation`. -/
structure FetchArgs where
  libraryId : String
  tokens : Int
  topic : String
  folders : String
  lang : String
  python : Option String
deriving Repr, DecidableEq

/-- JS `v || fallback` for an optional string producing a string:
an absent or empty (falsy) value yields the fallback. -/
def jsOrDefault (v : Option String) (fallback : String) : String :=
  match v with
  | some s => if s == "" then fallback else s
  | none => fallback

/-- JS `v || fallback` for an optional string producing an optional string. -/
def jsOrElse (v : Option String) (fallback : Option String) : Option String :=
  match v with
  | some s => if s == "" then fallback else some s
  | none => fallback

/-- Lines 203-213 of `index.ts`: sanitize the id, split off the folder
selector when the `"?folders="` marker is present, and resolve the effective
language and python version; the resulting record is what the handler passes
to the external `fetchLibraryDocumentation`. -/
def docsRequestArgs (cfg : Context7Config) (context7CompatibleLibraryID : String)
    (tokens : Int) (topic : String) (lang : Option String) (python : Option String) :
    FetchArgs :=
  let safeLibraryId := sanitizeLibraryId context7CompatibleLibraryID
  let parts := safeLibraryId.splitOn foldersMarkerStr
  let libraryId := if hasFoldersMarker safeLibraryId then parts.getD 0 "" else safeLibraryId
  let folders := if hasFoldersMarker safeLibraryId then parts.getD 1 "" else ""
  let effectiveLang := jsOrDefault lang cfg.defaultLang
  let effectivePython :=
    jsOrElse python (if effectiveLang == "python" then some cfg.defaultVersion else none)
  { libraryId := libraryId, tokens := tokens, topic := topic, folders := folders,
    lang := effectiveLang, python := effectivePython }

/-- Lines 181-255 of `index.ts`: the `get-library-docs` handler, after the
schema layer (so `tokens` is the post-zod, post-default number, `topic` the
post-default string).  `fetch` abstracts the external
`fetchLibraryDocumentation`; its `none`/empty result is the falsy branch.
The second component is the list of calls made to the remote. -/
def getLibraryDocs (cfg : Context7Config)
    (fetch : FetchArgs → RemoteCall (Option String))
    (context7CompatibleLibraryID : String) (tokens : Int) (topic : String)
    (lang : Option String) (python : Option String) :
    Envelope × List FetchArgs :=
  if context7CompatibleLibraryID.length < 3 then
    (errEnv invalidIdMsg, [])
  else if tokens ≠ 0 ∧ (tokens < 100 ∨ tokens > 100000) then
    (errEnv invalidTokensMsg, [])
  else
    match fetch (docsRequestArgs cfg context7CompatibleLibraryID tokens topic lang python) with
    | .throws msg =>
      (errEnv ("Error: " ++ msg),
       [docsRequestArgs cfg context7CompatibleLibraryID tokens topic lang python])
    | .returns none =>
      (errEnv docsNotFoundMsg,
       [docsRequestArgs cfg context7CompatibleLibraryID tokens topic lang python])
    | .returns (some d) =>
      if d == "" then
        (errEnv docsNotFoundMsg,
         [docsRequestArgs cfg context7CompatibleLibraryID tokens topic lang python])
      else
        (okEnv d,
         [docsRequestArgs cfg context7CompatibleLibraryID tokens topic lang python])

/-- The full `get-library-docs` request path: zod `tokens` pipeline, then the
destructuring defaults (`tokens = DEFAULT_MINIMUM_TOKENS`, `topic = ""`),
then the handler body; `none` means the schema rejected the request before
the handler ran. -/
def handleGetLibraryDocs (cfg : Context7Config)
    (fetch : FetchArgs → RemoteCall (Option String)) (minTok : Int)
    (id : String) (rawTokens : Option TokensValue) (topic : Option String)
    (lang : Option String) (python : Option String) :
    Option (Envelope × List FetchArgs) :=
  (zodTokens minTok rawTokens).map
    (fun t => getLibraryDocs cfg fetch id (t.getD minTok) (topic.getD "") lang python)

/-- JS `argv.indexOf(x)` under the guard `argv.includes(x)` (first index;
out of range when absent, which the call sites rule out). -/
def jsIndexOf (argv : List String) (x : String) : Nat :=
  argv.findIdx (fun a => a == x)

/-- JS `argv[i]`: `none` models `undefined`. -/
def jsAt (argv : List String) (i : Nat) : Option String :=
  argv.get? i

/-- Lines 262-264 of `index.ts`: the HTTP transport is selected by
`TRANSPORT=http` or a `--transport http` argument pair. -/
def useHttpTransport (envTransport : Option String) (argv : List String) : Bool :=
  envTransport == some "http" ||
    (argv.contains "--transport" && jsAt argv (jsIndexOf argv "--transport" + 1) == some "http")

/-- JS `argv.find((arg, i, arr) => arg === flag && arr[i+1])`: some occurrence
of the flag is followed by a defined, non-empty (truthy) value. -/
def hasFlagWithValue : List String → String → Bool
  | [], _ => false
  | [_], _ => false
  | a :: b :: rest, flag => (a == flag && b != "") || hasFlagWithValue (b :: rest) flag

/-- Line 276 of `index.ts`: the `--host` value (after the first occurrence)
or the default; `none` models `undefined`. -/
def hostArg (argv : List String) : Option String :=
  if hasFlagWithValue argv "--host" then jsAt argv (jsIndexOf argv "--host" + 1)
  else some "0.0.0.0"

/-- Line 277 of `index.ts`: `Number(argv[i+1])` for `--port` or the default
9700; `none` models NaN or `undefined`. -/
def portArg (argv : List String) : Option Int :=
  if hasFlagWithValue argv "--port" then (jsAt argv (jsIndexOf argv "--port" + 1)).bind jsNumber
  else some 9700

/-- The transport left serving when `main` settles. -/
inductive RunningTransport where
  | stdioChannel
  | httpListener (host : Option String) (port : Option Int)
deriving Repr, DecidableEq

/-- Observable outcome of `main`: the process exited with a code, or a single
transport is running. -/
inductive MainOutcome where
  | exited (code : Nat)
  | running (t : RunningTransport)
deriving Repr, DecidableEq

/-- Lines 260-309 of `index.ts`: transport selection.  `httpCapability`
models the fallible `try` body up to `server.connect`: dynamic import,
missing `StreamableHTTPServerTransport` export, construction or connect
failure all surface as `.error`, caught by the `catch` that logs and calls
`process.exit(1)`. -/
def runMain (envTransport : Option String) (argv : List String)
    (httpCapability : Except String Unit) : MainOutcome :=
  if useHttpTransport envTransport argv then
    match httpCapability with
    | .error _ => .exited 1
    | .ok _ => .running (.httpListener (hostArg argv) (portArg argv))
  else .running .stdioChannel

/-! Helper lemmas shared by the claim theorems. -/

theorem charsHasMarker_eq_false {l : List Char} (h : ('?' : Char) ∉ l) :
    charsHasMarker l = false := by
  induction l with
  | nil => rfl
  | cons c cs ih =>
    have hne : ('?' : Char) ≠ c := fun hEq => h (by rw [hEq]; exact List.mem_cons_self c cs)
    have hbeq : (('?' : Char) == c) = false := beq_eq_false_iff_ne.mpr hne
    have hcs : ('?' : Char) ∉ cs := fun hm => h (List.mem_cons_of_mem c hm)
    show (foldersMarker.isPrefixOf (c :: cs) || charsHasMarker cs) = false
    rw [ih hcs, Bool.or_false]
    simp [foldersMarker, List.isPrefixOf, hbeq]

theorem qmark_not_mem_sanitized (s : String) :
    ('?' : Char) ∉ (sanitizeLibraryId s).data := by
  intro hm
  have hmem : ('?' : Char) ∈ s.data.filter isIdChar := hm
  exact absurd (List.mem_filter.mp hmem).2 (by decide)

/-- The id sanitizer deletes every `'?'`, so a sanitized id can never contain
the `"?folders="` marker: the split branch of the handler is unreachable. -/
theorem hasFoldersMarker_sanitized (s : String) :
    hasFoldersMarker (sanitizeLibraryId s) = false :=
  charsHasMarker_eq_false (qmark_not_mem_sanitized s)

/-- Closed form of the record sent to the remote fetch: the folder selector is
always empty and the id is the whole sanitized input. -/
theorem docsRequestArgs_eq (cfg : Context7Config) (id : String) (t : Int)
    (topic : String) (lang python : Option String) :
    docsRequestArgs cfg id t topic lang python =
      { libraryId := sanitizeLibraryId id, tokens := t, topic := topic, folders := "",
        lang := jsOrDefault lang cfg.defaultLang,
        python := jsOrElse python
          (if jsOrDefault lang cfg.defaultLang == "python" then some cfg.defaultVersion
           else none) } := by
  simp [docsRequestArgs, hasFoldersMarker_sanitized]

/-- A `get-library-docs` request that passes both validations invokes the
remote fetch exactly once, with the computed argument record. -/
theorem getLibraryDocs_trace (cfg : Context7Config)
    (fetch : FetchArgs → RemoteCall (Option String)) (id : String) (t : Int)
    (topic : String) (lang python : Option String)
    (h3 : 3 ≤ id.length) (hlow : 100 ≤ t) (hhigh : t ≤ 100000) :
    (getLibraryDocs cfg fetch id t topic lang python).2 =
      [docsRequestArgs cfg id t topic lang python] := by
  unfold getLibraryDocs
  rw [if_neg (by omega), if_neg (by omega)]
  cases h : fetch (docsRequestArgs cfg id t topic lang python) with
  | throws msg => rfl
  | returns val =>
    cases val with
    | none => rfl
    | some d =>
      by_cases hd : d == ""
      · simp [hd]
      · simp [hd]

/-! Claim theorems. -/

/-- Claim C4: for every `libraryName` whose length is strictly less than 2 or
strictly greater than 100, `resolve-library-id` returns the validation error
envelope and the remote search is never invoked (empty call trace). -/
theorem c4_resolve_rejects_bad_length (cfg : Context7Config)
    (fmt : SearchResponse → String)
    (search : String → RemoteCall (Option SearchResponse)) (libraryName : String)
    (h : libraryName.length < 2 ∨ libraryName.length > 100) :
    resolveLibraryId cfg fmt search libraryName = (errEnv invalidNameMsg, []) := by
  unfold resolveLibraryId
  rw [if_pos h]

theorem c4_witness :
    (("x" : String).length < 2 ∨ ("x" : String).length > 100) ∧
      resolveLibraryId DEFAULT_CONFIG (fun _ => "") (fun _ => RemoteCall.returns none) "x"
        = (errEnv invalidNameMsg, []) :=
  ⟨Or.inl (by decide),
   c4_resolve_rejects_bad_length DEFAULT_CONFIG (fun _ => "")
     (fun _ => RemoteCall.returns none) "x" (Or.inl (by decide))⟩

/-- Claim C5: for every library id whose length is strictly less than 3,
`get-library-docs` returns the validation error envelope and the remote fetch
is never invoked (empty call trace). -/
theorem c5_docs_rejects_short_id (cfg : Context7Config)
    (fetch : FetchArgs → RemoteCall (Option String)) (id : String) (t : Int)
    (topic : String) (lang python : Option String)
    (h : id.length < 3) :
    getLibraryDocs cfg fetch id t topic lang python = (errEnv invalidIdMsg, []) := by
  unfold getLibraryDocs
  rw [if_pos h]

theorem c5_witness :
    ("ab" : String).length < 3 ∧
      getLibraryDocs DEFAULT_CONFIG (fun _ => RemoteCall.returns none) "ab" 10000 "" none none
        = (errEnv invalidIdMsg, []) :=
  ⟨by decide,
   c5_docs_rejects_short_id DEFAULT_CONFIG (fun _ => RemoteCall.returns none) "ab" 10000 ""
     none none (by decide)⟩

/-- Claim C6: config loading is total; an absent file yields the built-in
defaults, an unparsable file yields a warning and exactly the defaults, and a
parsable file is shallow-merged key by key — in particular the document
`defaultLang = "go"` overrides only that field. -/
theorem c6_config_merge :
    getContext7Config ConfigFileState.absent = (DEFAULT_CONFIG, false) ∧
    getContext7Config ConfigFileState.unparsable = (DEFAULT_CONFIG, true) ∧
    (∀ doc : ConfigDoc,
        getContext7Config (ConfigFileState.parsed doc) =
          ({ defaultLang := doc.defaultLang.getD DEFAULT_CONFIG.defaultLang,
             defaultVersion := doc.defaultVersion.getD DEFAULT_CONFIG.defaultVersion,
             supportedLangs := doc.supportedLangs.getD DEFAULT_CONFIG.supportedLangs,
             supportedVersions := doc.supportedVersions.getD DEFAULT_CONFIG.supportedVersions },
           false)) ∧
    getContext7Config
        (ConfigFileState.parsed
          { defaultLang := some "go", defaultVersion := none,
            supportedLangs := none, supportedVersions := none }) =
      ({ defaultLang := "go", defaultVersion := "3.11",
         supportedLangs := ["python"], supportedVersions := [("python", ["3.11"])] },
       false) :=
  ⟨rfl, rfl, fun _ => rfl, by decide⟩

/-- Claim C9: when the HTTP transport was explicitly requested and the HTTP
capability cannot be obtained or constructed, the process exits with status 1
and no transport — in particular not the stdio channel — is left running. -/
theorem c9_http_failure_fatal (envTransport : Option String) (argv : List String)
    (e : String) (h : useHttpTransport envTransport argv = true) :
    runMain envTransport argv (Except.error e) = MainOutcome.exited 1 ∧
      ∀ t : RunningTransport,
        runMain envTransport argv (Except.error e) ≠ MainOutcome.running t := by
  have h1 : runMain envTransport argv (Except.error e) = MainOutcome.exited 1 := by
    unfold runMain
    rw [if_pos h]
  exact ⟨h1, fun t hc => by rw [h1] at hc; cases hc⟩

theorem c9_witness :
    useHttpTransport (some "http") [] = true ∧
      (runMain (some "http") [] (Except.error "import failed") = MainOutcome.exited 1 ∧
        ∀ t : RunningTransport,
          runMain (some "http") [] (Except.error "import failed") ≠ MainOutcome.running t) :=
  ⟨by decide, c9_http_failure_fatal (some "http") [] "import failed" (by decide)⟩

/-- Claim C8: for a valid library name, a remote search response that is
absent (or lacks its result list) yields the "failed to retrieve" error
envelope, while a present response with an empty result list yields the
distinct "no libraries available" error envelope. -/
theorem c8_absent_vs_empty_results (cfg : Context7Config)
    (fmt : SearchResponse → String) (libraryName : String)
    (h : ¬(libraryName.length < 2 ∨ libraryName.length > 100)) :
    resolveLibraryId cfg fmt (fun _ => RemoteCall.returns none) libraryName
        = (errEnv failedRetrieveMsg, [searchQueryOf cfg libraryName]) ∧
    resolveLibraryId cfg fmt (fun _ => RemoteCall.returns (some { results := none }))
        libraryName
        = (errEnv failedRetrieveMsg, [searchQueryOf cfg libraryName]) ∧
    resolveLibraryId cfg fmt (fun _ => RemoteCall.returns (some { results := some [] }))
        libraryName
        = (errEnv noLibrariesMsg, [searchQueryOf cfg libraryName]) ∧
    errEnv failedRetrieveMsg ≠ errEnv noLibrariesMsg := by
  refine ⟨?_, ?_, ?_, by decide⟩
  · unfold resolveLibraryId
    rw [if_neg h]
  · unfold resolveLibraryId
    rw [if_neg h]
  · unfold resolveLibraryId
    rw [if_neg h]
    rfl

theorem c8_witness :
    ¬(("react" : String).length < 2 ∨ ("react" : String).length > 100) ∧
      (resolveLibraryId DEFAULT_CONFIG (fun _ => "") (fun _ => RemoteCall.returns none) "react"
          = (errEnv failedRetrieveMsg, [searchQueryOf DEFAULT_CONFIG "react"]) ∧
        resolveLibraryId DEFAULT_CONFIG (fun _ => "")
            (fun _ => RemoteCall.returns (some { results := none })) "react"
          = (errEnv failedRetrieveMsg, [searchQueryOf DEFAULT_CONFIG "react"]) ∧
        resolveLibraryId DEFAULT_CONFIG (fun _ => "")
            (fun _ => RemoteCall.returns (some { results := some [] })) "react"
          = (errEnv noLibrariesMsg, [searchQueryOf DEFAULT_CONFIG "react"]) ∧
        errEnv failedRetrieveMsg ≠ errEnv noLibrariesMsg) :=
  ⟨by decide, c8_absent_vs_empty_results DEFAULT_CONFIG (fun _ => "") "react" (by decide)⟩

/-- Claim C1: for every invocation of either handler, with any input and any
collaborator behaviour (success, absent result, empty result, raised
exception), the handler yields a well-formed envelope — exactly one text
content block — and a raising collaborator always surfaces as an error
envelope, never as a propagated failure. -/
theorem c1_handlers_total_envelope :
    (∀ (cfg : Context7Config) (fmt : SearchResponse → String)
        (search : String → RemoteCall (Option SearchResponse)) (libraryName : String),
        (resolveLibraryId cfg fmt search libraryName).1.content.map TextBlock.type
          = ["text"]) ∧
    (∀ (cfg : Context7Config) (fmt : SearchResponse → String) (msg : String)
        (libraryName : String),
        (resolveLibraryId cfg fmt (fun _ => RemoteCall.throws msg) libraryName).1.isError
          = true) ∧
    (∀ (cfg : Context7Config) (fetch : FetchArgs → RemoteCall (Option String))
        (id : String) (t : Int) (topic : String) (lang python : Option String),
        (getLibraryDocs cfg fetch id t topic lang python).1.content.map TextBlock.type
          = ["text"]) ∧
    (∀ (cfg : Context7Config) (msg : String) (id : String) (t : Int) (topic : String)
        (lang python : Option String),
        (getLibraryDocs cfg (fun _ => RemoteCall.throws msg) id t topic lang python).1.isError
          = true) := by
  refine ⟨?_, ?_, ?_, ?_⟩
  · intro cfg fmt search libraryName
    unfold resolveLibraryId
    split
    · rfl
    · split
      · rfl
      · rfl
      · split
        · rfl
        · split <;> rfl
  · intro cfg fmt msg libraryName
    unfold resolveLibraryId
    split <;> rfl
  · intro cfg fetch id t topic lang python
    unfold getLibraryDocs
    split
    · rfl
    · split
      · rfl
      · split
        · rfl
        · rfl
        · split <;> rfl
  · intro cfg msg id t topic lang python
    unfold getLibraryDocs
    split
    · rfl
    · split <;> rfl

/-- Claim C2: a string `tokens` value is coerced to a number and then clamped
up to the configured minimum, never rejected for being low; the handler then
validates the already-clamped value, so (for a minimum of at least 100) only
the upper bound 100000 can trigger rejection.  In particular `"50"` coerces
to 50 and clamps to 10000. -/
theorem c2_tokens_clamp_then_validate (minTok : Int) (hmin : 100 ≤ minTok) :
    (∀ (s : String) (n : Int), jsNumber s = some n →
        zodTokens minTok (some (TokensValue.str s)) = some (some (clampTokens minTok n))) ∧
    (∀ n : Int, minTok ≤ clampTokens minTok n) ∧
    (∀ (cfg : Context7Config) (fetch : FetchArgs → RemoteCall (Option String))
        (id : String) (topic : String) (lang python : Option String) (n : Int),
        3 ≤ id.length →
        (clampTokens minTok n ≤ 100000 →
          (getLibraryDocs cfg fetch id (clampTokens minTok n) topic lang python).2 ≠ []) ∧
        (100000 < clampTokens minTok n →
          getLibraryDocs cfg fetch id (clampTokens minTok n) topic lang python
            = (errEnv invalidTokensMsg, []))) ∧
    jsNumber "50" = some 50 ∧
    clampTokens 10000 50 = 10000 := by
  have hcl : ∀ n : Int, minTok ≤ clampTokens minTok n := by
    intro n
    unfold clampTokens
    split <;> omega
  refine ⟨?_, hcl, ?_, by decide, by decide⟩
  · intro s n h
    simp [zodTokens, h]
  · intro cfg fetch id topic lang python n h3
    constructor
    · intro hle
      rw [getLibraryDocs_trace cfg fetch id (clampTokens minTok n) topic lang python h3
            (by have := hcl n; omega) hle]
      simp
    · intro hgt
      unfold getLibraryDocs
      rw [if_neg (by omega), if_pos ⟨by omega, Or.inr (by omega)⟩]

theorem c2_witness :
    (100 : Int) ≤ 10000 ∧
      zodTokens 10000 (some (TokensValue.str "50")) = some (some (clampTokens 10000 50)) ∧
      (10000 : Int) ≤ clampTokens 10000 50 ∧
      getLibraryDocs DEFAULT_CONFIG (fun _ => RemoteCall.returns none) "abc"
          (clampTokens 10000 200000) "" none none = (errEnv invalidTokensMsg, []) ∧
      (getLibraryDocs DEFAULT_CONFIG (fun _ => RemoteCall.returns none) "abc"
          (clampTokens 10000 100000) "" none none).2 ≠ [] ∧
      jsNumber "50" = some 50 ∧
      clampTokens 10000 50 = 10000 :=
  have h := c2_tokens_clamp_then_validate 10000 (by decide)
  ⟨by decide,
   h.1 "50" 50 (by decide),
   h.2.1 50,
   (h.2.2.1 DEFAULT_CONFIG (fun _ => RemoteCall.returns none) "abc" "" none none 200000
      (by decide)).2 (by decide),
   (h.2.2.1 DEFAULT_CONFIG (fun _ => RemoteCall.returns none) "abc" "" none none 100000
      (by decide)).1 (by decide),
   h.2.2.2.1,
   h.2.2.2.2⟩

/-- Claim C3 is false on the code: the id sanitizer deletes `'?'` and `'='`,
so the input `"react!!js?folders=/hooks"` sanitizes to
`"reactjsfolders/hooks"` (not `"reactjs?folders=/hooks"`), no split happens,
and the remote fetch receives the whole string with an empty folder
selector. -/
theorem c3_counterexample :
    sanitizeLibraryId "react!!js?folders=/hooks" = "reactjsfolders/hooks" ∧
    sanitizeLibraryId "react!!js?folders=/hooks" ≠ "reactjs?folders=/hooks" ∧
    (getLibraryDocs DEFAULT_CONFIG (fun _ => RemoteCall.returns none)
        "react!!js?folders=/hooks" 10000 "" none none).2 =
      [{ libraryId := "reactjsfolders/hooks", tokens := 10000, topic := "",
         folders := "", lang := "python", python := some "3.11" }] :=
  ⟨by decide, by decide, by decide⟩

/-- Claim C3 amended: the sanitized id never contains the `"?folders="`
marker (the sanitizer deletes `'?'`), so the split branch is unreachable:
every fetch receives the whole sanitized id and an empty folder selector. -/
theorem c3_amended_no_folder_split (cfg : Context7Config)
    (fetch : FetchArgs → RemoteCall (Option String)) (id : String) (t : Int)
    (topic : String) (lang python : Option String)
    (h3 : 3 ≤ id.length) (hlow : 100 ≤ t) (hhigh : t ≤ 100000) :
    hasFoldersMarker (sanitizeLibraryId id) = false ∧
    (getLibraryDocs cfg fetch id t topic lang python).2.map FetchArgs.libraryId
      = [sanitizeLibraryId id] ∧
    (getLibraryDocs cfg fetch id t topic lang python).2.map FetchArgs.folders = [""] := by
  refine ⟨hasFoldersMarker_sanitized id, ?_, ?_⟩ <;>
    rw [getLibraryDocs_trace cfg fetch id t topic lang python h3 hlow hhigh,
      docsRequestArgs_eq] <;> rfl

theorem c3_amended_witness :
    3 ≤ ("react!!js?folders=/hooks" : String).length ∧
      (100 : Int) ≤ 10000 ∧ (10000 : Int) ≤ 100000 ∧
      (hasFoldersMarker (sanitizeLibraryId "react!!js?folders=/hooks") = false ∧
        (getLibraryDocs DEFAULT_CONFIG (fun _ => RemoteCall.returns none)
            "react!!js?folders=/hooks" 10000 "" none none).2.map FetchArgs.libraryId
          = [sanitizeLibraryId "react!!js?folders=/hooks"] ∧
        (getLibraryDocs DEFAULT_CONFIG (fun _ => RemoteCall.returns none)
            "react!!js?folders=/hooks" 10000 "" none none).2.map FetchArgs.folders
          = [""]) :=
  ⟨by decide, by decide, by decide,
   c3_amended_no_folder_split DEFAULT_CONFIG (fun _ => RemoteCall.returns none)
     "react!!js?folders=/hooks" 10000 "" none none (by decide) (by decide) (by decide)⟩

/-- Claim C7 is false on the code at an explicitly given empty-string `lang`:
JS `||` treats `""` as absent, so the effective language is the config
default `"python"` (not the given `""`) and the version parameter is the
config default, not absent. -/
theorem c7_counterexample :
    (getLibraryDocs DEFAULT_CONFIG (fun _ => RemoteCall.returns none) "abc" 10000 ""
        (some "") none).2.map FetchArgs.lang = ["python"] ∧
    (getLibraryDocs DEFAULT_CONFIG (fun _ => RemoteCall.returns none) "abc" 10000 ""
        (some "") none).2.map FetchArgs.python = [some "3.11"] ∧
    ("python" : String) ≠ "" :=
  ⟨by decide, by decide, by decide⟩

/-- Claim C7 amended: the effective language is the explicit `lang` when
given and non-empty, else `config.defaultLang` (an empty string falls back
like an absent one); the effective version is the explicit `python` when
given and non-empty, else `config.defaultVersion` exactly when the effective
language equals `"python"`, and absent otherwise. -/
theorem c7_amended_effective_lang_version (cfg : Context7Config)
    (fetch : FetchArgs → RemoteCall (Option String)) (id : String) (t : Int)
    (topic : String) (lang python : Option String)
    (h3 : 3 ≤ id.length) (hlow : 100 ≤ t) (hhigh : t ≤ 100000) :
    (getLibraryDocs cfg fetch id t topic lang python).2.map FetchArgs.lang
      = [jsOrDefault lang cfg.defaultLang] ∧
    (getLibraryDocs cfg fetch id t topic lang python).2.map FetchArgs.python
      = [jsOrElse python
          (if jsOrDefault lang cfg.defaultLang == "python" then some cfg.defaultVersion
           else none)] := by
  constructor <;>
    rw [getLibraryDocs_trace cfg fetch id t topic lang python h3 hlow hhigh,
      docsRequestArgs_eq] <;> rfl

theorem c7_amended_witness :
    3 ≤ ("abc" : String).length ∧ (100 : Int) ≤ 10000 ∧ (10000 : Int) ≤ 100000 ∧
      ((getLibraryDocs DEFAULT_CONFIG (fun _ => RemoteCall.returns none) "abc" 10000 ""
          none none).2.map FetchArgs.lang = [jsOrDefault none DEFAULT_CONFIG.defaultLang] ∧
        (getLibraryDocs DEFAULT_CONFIG (fun _ => RemoteCall.returns none) "abc" 10000 ""
          none none).2.map FetchArgs.python
          = [jsOrElse none
              (if jsOrDefault none DEFAULT_CONFIG.defaultLang == "python"
               then some DEFAULT_CONFIG.defaultVersion else none)]) :=
  ⟨by decide, by decide, by decide,
   c7_amended_effective_lang_version DEFAULT_CONFIG (fun _ => RemoteCall.returns none)
     "abc" 10000 "" none none (by decide) (by decide) (by decide)⟩

/-- Claim C10: the minimum-length check of `get-library-docs` reads the raw
id, before sanitization: whenever the raw id has length at least 3 but its
sanitized form is shorter than 3 characters (possibly empty), validation
passes and the remote fetch is invoked with the shortened or empty sanitized
id. -/
theorem c10_length_check_on_raw_id (cfg : Context7Config)
    (fetch : FetchArgs → RemoteCall (Option String)) (id : String) (t : Int)
    (topic : String) (lang python : Option String)
    (h3 : 3 ≤ id.length) (hshort : (sanitizeLibraryId id).length < 3)
    (hlow : 100 ≤ t) (hhigh : t ≤ 100000) :
    (getLibraryDocs cfg fetch id t topic lang python).2.map FetchArgs.libraryId
      = [sanitizeLibraryId id] := by
  rw [getLibraryDocs_trace cfg fetch id t topic lang python h3 hlow hhigh,
    docsRequestArgs_eq]
  rfl

theorem c10_witness :
    3 ≤ ("???" : String).length ∧ (sanitizeLibraryId "???").length < 3 ∧
      (100 : Int) ≤ 10000 ∧ (10000 : Int) ≤ 100000 ∧
      (getLibraryDocs DEFAULT_CONFIG (fun _ => RemoteCall.returns none) "???" 10000 ""
          none none).2.map FetchArgs.libraryId = [sanitizeLibraryId "???"] :=
  ⟨by decide, by decide, by decide, by decide,
   c10_length_check_on_raw_id DEFAULT_CONFIG (fun _ => RemoteCall.returns none) "???"
     10000 "" none none (by decide) (by decide) (by decide) (by decide)⟩

end Context7
